import Mathlib

/-!
Verification development for the GraphQL-over-HTTP protocol layer of this
repository.  The two orchestrators under scrutiny are
`BaseHTTPView` (src/strawberry/http/base_view.py, synchronous) and
`HTTPHandler` (src/strawberry/asgi/handlers/http_handler.py, asynchronous).
External collaborators (the Python `json` module, the execution engine,
`strawberry.http` helpers absent from src/) are modelled explicitly; every
such definition carries a doc comment saying what it models.
-/

/-- JSON values, the common currency of request bodies, query parameters and
execution results.  Numbers are modelled as integers: no claim depends on
numeric payloads. -/
inductive Json where
  | null
  | bool (b : Bool)
  | num (n : Int)
  | str (s : String)
  | arr (items : List Json)
  | obj (fields : List (String × Json))

/-- A piece of request text together with the outcome of JSON-decoding it.
Python's `json.loads` is external to this repository, so a request carries,
for each text that the code may decode, the decoder's verdict: `some j`
(decodes to `j`) or `none` (raises `json.JSONDecodeError`). -/
structure JsonText where
  raw : String
  loads : Option Json

/-- Lookup of a key in a decoded JSON object's field list (first occurrence;
query-parameter and JSON-object dictionaries carry no duplicate keys). -/
def json_fields_get : List (String × Json) → String → Option Json
  | [], _ => none
  | (k, v) :: rest, key => if k = key then some v else json_fields_get rest key

/-- Python's `data.get(key)` on a decoded JSON object.  On a non-object the
source would raise `AttributeError`; that path is unreachable in the claims
and modelled as `none`. -/
def Json.get : Json → String → Option Json
  | .obj fields, key => json_fields_get fields key
  | _, _ => none

/-- Whether `sub` occurs at the start of `hay` (character lists). -/
def starts_with_chars : List Char → List Char → Bool
  | _, [] => true
  | [], _ :: _ => false
  | c :: cs, d :: ds => (c == d) && starts_with_chars cs ds

/-- Whether `sub` occurs anywhere inside `hay` (character lists). -/
def has_substring_chars : List Char → List Char → Bool
  | [], sub => sub.isEmpty
  | c :: cs, sub => starts_with_chars (c :: cs) sub || has_substring_chars cs sub

/-- Python's `sub in hay` substring test on strings. -/
def str_has (hay sub : String) : Bool := has_substring_chars hay.data sub.data

/-- Python's `hay.startswith(sub)` test on strings. -/
def str_starts (hay sub : String) : Bool := starts_with_chars hay.data sub.data

/-- ASCII lowercase of one character.  The method strings the source
lowercases are ASCII; non-ASCII characters pass through unchanged. -/
def char_lower (c : Char) : Char :=
  if 65 ≤ c.toNat ∧ c.toNat ≤ 90 then Char.ofNat (c.toNat + 32) else c

/-- Python's `s.lower()` on the ASCII method strings. -/
def str_lower (s : String) : String := ⟨s.data.map char_lower⟩

/-- The closed enumeration of GraphQL operation kinds
(strawberry/types/graphql.py `OperationType`, imported by both
orchestrators). -/
inductive OperationType where
  | QUERY
  | MUTATION
  | SUBSCRIPTION
deriving DecidableEq

/-- The lowercase kind name carried by the enumeration members. -/
def OperationType.value : OperationType → String
  | .QUERY => "query"
  | .MUTATION => "mutation"
  | .SUBSCRIPTION => "subscription"

/-- Modelled from the spec: `OperationType.from_http` lives in
strawberry/types/graphql.py, which is absent from src/.  Per §4.3 of the
spec, GET starts from the set containing only QUERY and POST starts from the
set of QUERY and MUTATION.  The spec defines no other method string (the
orchestrators only reach this call with GET or POST); other strings are
mapped to the empty set here and no theorem depends on that value. -/
def OperationType.from_http (method : String) : Finset OperationType :=
  if method = "GET" then {OperationType.QUERY}
  else if method = "POST" then {OperationType.QUERY, OperationType.MUTATION}
  else ∅

/-- The operation gate computed identically by both orchestrators
(base_view.py lines 83-86, http_handler.py lines 148-151): start from
`OperationType.from_http(method)` and, when `allow_queries_via_get` is false
and the method is the exact string "GET", remove QUERY. -/
def allowed_operation_types (method : String) (allow_queries_via_get : Bool) :
    Finset OperationType :=
  let a := OperationType.from_http method
  if allow_queries_via_get = false ∧ method = "GET" then a \ {OperationType.QUERY}
  else a

/-- Modelled from the spec: `InvalidOperationTypeError.as_http_error_reason`
lives in strawberry/schema/exceptions.py, absent from src/.  Per §4.3/§7 the
reason names the attempted kind and the method; the exact wording is opaque
to the claims, which only compare both orchestrators' use of it. -/
def as_http_error_reason (t : OperationType) (method : String) : String :=
  t.value ++ " operations are not allowed when using " ++ method ++ " requests"

/-- The HTTPException raised by the synchronous view
(base_view.py lines 31-34). -/
structure HTTPException where
  status_code : Nat
  reason : String
deriving DecidableEq

/-- The normalized request value produced by parsing
(strawberry.http.GraphQLRequestData; its shape is fixed by the spec §3 and
by the construction in base_view.py lines 158-162). -/
structure GraphQLRequestData where
  query : Option Json
  -- the source field is named `variables`, a reserved word in Lean; the
  -- name below is the keyword under which the orchestrators pass it on
  -- (`variable_values=request_data.variables`)
  variable_values : Option Json
  operation_name : Option Json

/-- Modelled from the spec: `strawberry.http.parse_request_data` is absent
from src/; per §4.1 it extracts the three optional keys `query`, `variables`
and `operationName`.  The synchronous view performs the identical extraction
inline (base_view.py lines 158-162), so both orchestrators share this
definition. -/
def parse_request_data (data : Json) : GraphQLRequestData :=
  { query := data.get "query"
    variable_values := data.get "variables"
    operation_name := data.get "operationName" }

/-- The opaque context value produced by the user-supplied collaborator. -/
abbrev Context := Json

/-- The opaque root value produced by the user-supplied collaborator. -/
abbrev RootValue := Json

/-- The execution engine's result object (strawberry.types.ExecutionResult):
data, GraphQL-level errors and extensions. -/
structure ExecutionResult where
  data : Json
  errors : List Json
  extensions : List (String × Json)

/-- Modelled from the spec: `strawberry.http.process_result` is absent from
src/; per §4.5/§6 it serializes the result as an object with `data` always
present and `errors`/`extensions` present only when non-empty. -/
def process_result (result : ExecutionResult) : Json :=
  Json.obj ([("data", result.data)]
    ++ (if result.errors.isEmpty then [] else [("errors", Json.arr result.errors)])
    ++ (if result.extensions.isEmpty then []
        else [("extensions", Json.obj result.extensions)]))

mutual

/-- Serialization of a JSON value; used to model Python's `json.dumps`
(external stdlib).  String escaping is elided: no claim compares serialized
text against hand-written JSON. -/
def Json.render : Json → String
  | .null => "null"
  | .bool b => if b then "true" else "false"
  | .num n => toString n
  | .str s => "\"" ++ s ++ "\""
  | .arr items => "[" ++ Json.render_items items ++ "]"
  | .obj fields => "\x7b" ++ Json.render_fields fields ++ "\x7d"

/-- Serialization of a JSON array's items. -/
def Json.render_items : List Json → String
  | [] => ""
  | [j] => Json.render j
  | j :: rest => Json.render j ++ "," ++ Json.render_items rest

/-- Serialization of a JSON object's fields. -/
def Json.render_fields : List (String × Json) → String
  | [] => ""
  | [(k, j)] => "\"" ++ k ++ "\":" ++ Json.render j
  | (k, j) :: rest => "\"" ++ k ++ "\":" ++ Json.render j ++ "," ++ Json.render_fields rest

end

/-- Modelled from the spec: the base view's `encode_json` (base_view.py lines
105-106) delegates to `json.dumps` (external stdlib); §6 fixes the payload
shape, not the formatting. -/
def encode_json (response_data : Json) : String := Json.render response_data

/-- The failures the external execution engine reports through this layer
(spec §4.4 step 7): an operation of a kind outside the allowed set, or no
query in the request. -/
inductive EngineError where
  | invalidOperationType (t : OperationType)
  | missingQuery
deriving DecidableEq

/-- Model of the external execution engine (BaseSchema): how it classifies a
query document's operation kind, and the result it produces when admitted. -/
structure BaseSchema where
  classify : Json → OperationType
  run : GraphQLRequestData → Context → RootValue → ExecutionResult

/-- Modelled from the spec: `schema.execute` / `schema.execute_sync` are
external to src/.  Per §4.4 step 7 and §4.3 the engine raises MissingQuery
when the request supplies no query, rejects an operation whose declared kind
is not in the allowed set with InvalidOperationType, and otherwise returns
its result. -/
def BaseSchema.execute (schema : BaseSchema) (rd : GraphQLRequestData)
    (ctx : Context) (root : RootValue) (allowed : Finset OperationType) :
    Except EngineError ExecutionResult :=
  match rd.query with
  | none => .error .missingQuery
  | some q =>
      if schema.classify q ∈ allowed then .ok (schema.run rd ctx root)
      else .error (.invalidOperationType (schema.classify q))

/-- An HTTP response: status code, extensible header list, content type and
body (starlette's Response / the abstract TransportResponse of spec §3). -/
structure HttpResponse where
  status_code : Nat
  headers : List (String × String)
  media_type : String
  body : String
deriving DecidableEq

/-- A starlette `PlainTextResponse(body, status_code=status)`. -/
def plain_text_response (body : String) (status : Nat) : HttpResponse :=
  ⟨status, [], "text/plain", body⟩

/-- A starlette `HTMLResponse(body, status_code=status)`. -/
def html_response (body : String) (status : Nat) : HttpResponse :=
  ⟨status, [], "text/html", body⟩

/-- The sub-response accumulator available to context construction
(http_handler.py lines 50-52): user code may add headers and set a status
before the protocol response exists. -/
structure SubResponse where
  headers : List (String × String)
  status_code : Option Nat
deriving DecidableEq

/-- Observable protocol actions, recorded in order: a request-data parse
attempt, the two collaborator invocations, and the call into the execution
engine. -/
inductive Event where
  | parse
  | get_context
  | get_root_value
  | execute
deriving DecidableEq

/-- The multipart form of a request: the `operations` and `map` fields when
present, and the outcome of `replace_placeholders_with_files`
(strawberry/file_uploads/utils.py, external to src/): `some tree` on
success, `none` for its KeyError (a referenced file part is missing). -/
structure FormData where
  operations : Option JsonText
  map : Option JsonText
  files_resolved : Option Json

/-- An inbound HTTP request, covering the capabilities both orchestrators
probe: method, content type ("" when the header is absent), accept header,
body text with its JSON-decode outcome, query parameters (each value with
the decode outcome the `variables` treatment may need), and multipart form
data. -/
structure Request where
  method : String
  content_type : String
  accept : String
  body : JsonText
  query_params : List (String × JsonText)
  form : FormData

/-- Query-parameter normalization shared by both orchestrators: every value
stays a string except `variables`, which is replaced by its JSON decode;
a failing decode is the decoder's JSONDecodeError (base_view.py lines
164-168; `strawberry.http.parse_query_params`, imported by the asynchronous
handler, is absent from src/ and per spec §4.1 applies the same rule). -/
def parse_query_params : List (String × JsonText) → Except Unit (List (String × Json))
  | [] => .ok []
  | (k, t) :: rest =>
    if k = "variables" then
      match t.loads with
      | none => .error ()
      | some j => (parse_query_params rest).map (fun ps => (k, j) :: ps)
    else
      (parse_query_params rest).map (fun ps => (k, Json.str t.raw) :: ps)

/-- Python's `form.get(name, "\x7b\x7d")` followed by `json.loads`: an absent
field defaults to the empty object, a present field carries its own decode
outcome. -/
def form_field_json : Option JsonText → Option Json
  | some t => t.loads
  | none => some (Json.obj [])

/-- First query parameter with the given key (Python dict lookup). -/
def find_param : List (String × JsonText) → String → Option JsonText
  | [], _ => none
  | (k, t) :: rest, key => if k = key then some t else find_param rest key

/-! ## The synchronous view (src/strawberry/http/base_view.py) -/

/-- The abstract members of BaseHTTPView that concrete framework views
supply (base_view.py lines 46-67), together with the schema.  The
user-supplied context collaborator receives the mutable sub-response and
returns the context plus the sub-response as it left it. -/
structure BaseHTTPView where
  allow_queries_via_get : Bool
  schema : BaseSchema
  get_sub_response : Request → SubResponse
  get_context : Request → SubResponse → Context × SubResponse
  get_root_value : Request → RootValue
  render_graphiql : Request → HttpResponse

/-- Admission check (base_view.py lines 40-41): the lowercased method must be
"get" or "post". -/
def BaseHTTPView.is_request_allowed (_v : BaseHTTPView) (request : Request) : Bool :=
  str_lower request.method == "get" || str_lower request.method == "post"

/-- Console check of the base view (base_view.py lines 43-44): constantly
false; overriding it is left to concrete views outside src/. -/
def BaseHTTPView.should_render_graphiql (_v : BaseHTTPView) (_request : Request) : Bool :=
  false

/-- Body-text decoding (base_view.py lines 99-103): `json.loads` with its
JSONDecodeError mapped to HTTPException(400, ...). -/
def BaseHTTPView.parse_json (t : JsonText) : Except HTTPException Json :=
  match t.loads with
  | some j => .ok j
  | none => .error ⟨400, "Unable to parse request body as JSON"⟩

/-- Multipart parsing (base_view.py lines 108-117): decode the `operations`
and `map` form fields (defaulting to the empty object), then take the
outcome of the external `replace_placeholders_with_files`, whose KeyError
becomes HTTPException(400, "File(s) missing in form data"). -/
def BaseHTTPView.parse_form (request : Request) : Except HTTPException Json :=
  match form_field_json request.form.operations with
  | none => .error ⟨400, "Unable to parse request body as JSON"⟩
  | some _operations =>
    match form_field_json request.form.map with
    | none => .error ⟨400, "Unable to parse request body as JSON"⟩
    | some _files_map =>
      match request.form.files_resolved with
      | some data => .ok data
      | none => .error ⟨400, "File(s) missing in form data"⟩

/-- Request-body dispatch (base_view.py lines 130-162): content-type
containing "application/json" selects the JSON body, a content-type starting
with "multipart/form-data" selects the form, a lowercased method "get"
selects the query parameters (whose raw JSONDecodeError is caught by
execute_operation, lines 72-73, with the same message parse_json uses), and
anything else raises 400 "Unsupported content type".  The resulting data
object yields the GraphQLRequestData (lines 158-162, the extraction shared
with parse_request_data). -/
def BaseHTTPView.parse_http_body (request : Request) :
    Except HTTPException GraphQLRequestData :=
  (if str_has request.content_type "application/json" then
      BaseHTTPView.parse_json request.body
    else if str_starts request.content_type "multipart/form-data" then
      BaseHTTPView.parse_form request
    else if str_lower request.method = "get" then
      match parse_query_params request.query_params with
      | .ok params => .ok (Json.obj params)
      | .error _ => .error ⟨400, "Unable to parse request body as JSON"⟩
    else
      .error ⟨400, "Unsupported content type"⟩).map parse_request_data

/-- Errors escaping execute_operation: an HTTPException raised while
parsing, or an engine failure that run (base_view.py lines 179-184) still
has to translate. -/
inductive SyncError where
  | http (e : HTTPException)
  | engine (e : EngineError)

/-- The synchronous execution step (base_view.py lines 69-97): parse the
body, build context (which may mutate the sub-response) and root value, run
the gate, call the engine.  The third component records the observable
actions in order. -/
def BaseHTTPView.execute_operation (v : BaseHTTPView) (request : Request)
    (sub_response : SubResponse) :
    Except SyncError ExecutionResult × SubResponse × List Event :=
  match BaseHTTPView.parse_http_body request with
  | .error e => (.error (.http e), sub_response, [Event.parse])
  | .ok request_data =>
    let ctx_sub := v.get_context request sub_response
    let root_value := v.get_root_value request
    let allowed := allowed_operation_types request.method v.allow_queries_via_get
    (match v.schema.execute request_data ctx_sub.1 root_value allowed with
     | .error e => .error (.engine e)
     | .ok result => .ok result,
     ctx_sub.2,
     [Event.parse, Event.get_context, Event.get_root_value, Event.execute])

/-- Modelled from the spec: `BaseHTTPView._create_response` is absent from
src/ (only its call at base_view.py lines 188-190 is).  Per §4.5 the builder
emits status 200, content type application/json and the serialized response
data; the §3 sub-response merge belongs to the outer adapter and is modelled
separately. -/
def BaseHTTPView.create_response (response_data : Json) (_sub_response : SubResponse) :
    HttpResponse :=
  ⟨200, [], "application/json", encode_json response_data⟩

/-- The synchronous orchestrator (base_view.py lines 170-190): admission,
console check, sub-response creation, execution, error translation
(lines 181-184), response building. -/
def BaseHTTPView.run (v : BaseHTTPView) (request : Request) :
    Except HTTPException HttpResponse × List Event :=
  if v.is_request_allowed request = false then
    (.error ⟨405, "GraphQL only supports GET and POST requests."⟩, [])
  else if v.should_render_graphiql request then
    (.ok (v.render_graphiql request), [])
  else
    let sub_response := v.get_sub_response request
    match v.execute_operation request sub_response with
    | (.error (.http e), _, trace) => (.error e, trace)
    | (.error (.engine (.invalidOperationType t)), _, trace) =>
        (.error ⟨400, as_http_error_reason t request.method⟩, trace)
    | (.error (.engine .missingQuery), _, trace) =>
        (.error ⟨400, "No GraphQL query found in the request"⟩, trace)
    | (.ok result, sub', trace) =>
        (.ok (BaseHTTPView.create_response (process_result result) sub'), trace)

/-- Modelled from the spec: the framework adapter around run is outside
src/; per §6/§7 it turns a raised HTTPException into a plain-text response
carrying the exception's status and reason. -/
def BaseHTTPView.run_http (v : BaseHTTPView) (request : Request) :
    HttpResponse × List Event :=
  match v.run request with
  | (.ok response, trace) => (response, trace)
  | (.error e, trace) => (plain_text_response e.reason e.status_code, trace)

/-! ## The asynchronous handler (src/strawberry/asgi/handlers/http_handler.py) -/

/-- The constructor-injected state of HTTPHandler (http_handler.py lines
26-44), plus the static console page text (`get_graphiql_html`, external to
src/). -/
structure HTTPHandler where
  schema : BaseSchema
  graphiql : Bool
  allow_queries_via_get : Bool
  debug : Bool
  get_context : Request → SubResponse → Context × SubResponse
  get_root_value : Request → RootValue
  process_result : ExecutionResult → Json
  encode_json : Json → String
  graphiql_html : String

/-- Console check of the handler (http_handler.py lines 181-188): the
feature flag, and an accept header containing "text/html" or "*/*". -/
def HTTPHandler.should_render_graphiql (h : HTTPHandler) (request : Request) : Bool :=
  h.graphiql && (str_has request.accept "text/html" || str_has request.accept "*/*")

/-- The static console response (http_handler.py lines 190-193). -/
def HTTPHandler.get_graphiql_response (h : HTTPHandler) : HttpResponse :=
  html_response h.graphiql_html 200

/-- The tail shared by every parsed request (http_handler.py lines 140-179):
normalize the data (the JSONDecodeError guard around parse_request_data
cannot fire, the extraction decodes nothing), run the gate, call the engine,
translate its two failures, and otherwise build the 200 application/json
response from the injected process_result and encode_json. -/
def HTTPHandler.respond_with_data (h : HTTPHandler) (method : String) (data : Json)
    (context : Context) (root_value : RootValue) : HttpResponse :=
  let request_data := parse_request_data data
  let allowed := allowed_operation_types method h.allow_queries_via_get
  match h.schema.execute request_data context root_value allowed with
  | .error (.invalidOperationType t) =>
      plain_text_response (as_http_error_reason t method) 400
  | .error .missingQuery =>
      plain_text_response "No GraphQL query found in the request" 400
  | .ok result =>
      ⟨200, [], "application/json", h.encode_json (h.process_result result)⟩

/-- The asynchronous dispatch (http_handler.py lines 74-179): method "GET"
with query parameters decodes them (a JSONDecodeError yields 400), an empty
query string short-circuits to the console page or a bare 404; method "POST"
dispatches on content type to the JSON body, the multipart form (lines
108-128: decode operations and map, then the external placeholder
replacement whose KeyError yields 400 "File(s) missing in form data"), or
415 "Unsupported Media Type"; any other method yields 405 "Method Not
Allowed". -/
def HTTPHandler.get_http_response (h : HTTPHandler) (request : Request)
    (context : Context) (root_value : RootValue) : HttpResponse × List Event :=
  let method := request.method
  if method = "GET" then
    if request.query_params.isEmpty = false then
      match parse_query_params request.query_params with
      | .error _ =>
          (plain_text_response "Unable to parse request body as JSON" 400, [Event.parse])
      | .ok params =>
          (h.respond_with_data method (Json.obj params) context root_value,
           [Event.parse, Event.execute])
    else if h.should_render_graphiql request then
      (h.get_graphiql_response, [])
    else
      (html_response "" 404, [])
  else if method = "POST" then
    let content_type := request.content_type
    if str_has content_type "application/json" then
      match request.body.loads with
      | none =>
          (plain_text_response "Unable to parse request body as JSON" 400, [Event.parse])
      | some data =>
          (h.respond_with_data method data context root_value,
           [Event.parse, Event.execute])
    else if str_starts content_type "multipart/form-data" then
      match form_field_json request.form.operations with
      | none =>
          (plain_text_response "Unable to parse request body as JSON" 400, [Event.parse])
      | some _operations =>
        match form_field_json request.form.map with
        | none =>
            (plain_text_response "Unable to parse request body as JSON" 400, [Event.parse])
        | some _files_map =>
          match request.form.files_resolved with
          | none =>
              (plain_text_response "File(s) missing in form data" 400, [Event.parse])
          | some data =>
              (h.respond_with_data method data context root_value,
               [Event.parse, Event.execute])
    else
      (plain_text_response "Unsupported Media Type" 415, [])
  else
    (plain_text_response "Method Not Allowed" 405, [])

/-- The sub-response merge performed by handle (http_handler.py lines
64-70): the protocol response's raw header list is extended with the
sub-response's headers, and the status is overwritten only when the
sub-response's status is set and truthy (Python's `if
sub_response.status_code:`; the initial value None and the integer 0 are
falsy). -/
def merge_sub_response (response : HttpResponse) (sub_response : SubResponse) :
    HttpResponse :=
  { response with
    headers := response.headers ++ sub_response.headers
    status_code :=
      match sub_response.status_code with
      | some s => if s = 0 then response.status_code else s
      | none => response.status_code }

/-- The asynchronous orchestrator (http_handler.py lines 46-72): build the
root value, create the empty sub-response, build the context (which may
mutate the sub-response), compute the protocol response, and merge the
sub-response into it (the background-task copy at line 66-67 carries no
observable state in this model). -/
def HTTPHandler.handle (h : HTTPHandler) (request : Request) :
    HttpResponse × List Event :=
  let root_value := h.get_root_value request
  let sub0 : SubResponse := ⟨[], none⟩
  let ctx_sub := h.get_context request sub0
  let resp_trace := h.get_http_response request ctx_sub.1 root_value
  (merge_sub_response resp_trace.1 ctx_sub.2,
   Event.get_root_value :: Event.get_context :: resp_trace.2)

/-! ## Concrete instances for witnesses and counterexamples -/

/-- A fixed execution result: no data, no errors, no extensions. -/
def sample_result : ExecutionResult := ⟨Json.null, [], []⟩

/-- A schema that classifies every document as a query and always returns
`sample_result`. -/
def default_schema : BaseSchema :=
  ⟨fun _ => OperationType.QUERY, fun _ _ _ => sample_result⟩

/-- A view with trivial collaborators: empty sub-response, pass-through
context, null root value. -/
def default_view : BaseHTTPView :=
  { allow_queries_via_get := true
    schema := default_schema
    get_sub_response := fun _ => ⟨[], none⟩
    get_context := fun _ sub => (Json.null, sub)
    get_root_value := fun _ => Json.null
    render_graphiql := fun _ => html_response "" 200 }

/-- A handler with trivial collaborators and the default result pipeline. -/
def default_handler : HTTPHandler :=
  { schema := default_schema
    graphiql := true
    allow_queries_via_get := true
    debug := false
    get_context := fun _ sub => (Json.null, sub)
    get_root_value := fun _ => Json.null
    process_result := process_result
    encode_json := encode_json
    graphiql_html := "<html>graphiql</html>" }

/-- The empty multipart form (no operations field, no map field, no resolved
 files). -/
def empty_form : FormData := ⟨none, none, none⟩

/-- A body text that is not JSON. -/
def bad_body : JsonText := ⟨"not json", none⟩

/-- A body text decoding to the object with a single "query" field. -/
def query_body : JsonText :=
  ⟨"\x7b\"query\": \"\x7b hello \x7d\"\x7d", some (Json.obj [("query", Json.str "\x7b hello \x7d")])⟩

/-- A POST request with content type text/plain. -/
def post_text_req : Request :=
  { method := "POST", content_type := "text/plain", accept := ""
    body := bad_body, query_params := [], form := empty_form }

/-- A PUT request. -/
def put_req : Request :=
  { method := "PUT", content_type := "application/json", accept := ""
    body := query_body, query_params := [], form := empty_form }

/-- A GET request with no query string and no content type. -/
def bare_get_req : Request :=
  { method := "GET", content_type := "", accept := "text/html"
    body := ⟨"", none⟩, query_params := [], form := empty_form }

/-- A GET request whose query string carries a query and a malformed
`variables` value. -/
def get_bad_vars_req : Request :=
  { method := "GET", content_type := "", accept := ""
    body := ⟨"", none⟩
    query_params := [("query", ⟨"\x7b hello \x7d", none⟩), ("variables", ⟨"oops", none⟩)]
    form := empty_form }

/-- A GET request that carries both a JSON content type with a valid JSON
body and a query string with a malformed `variables` value. -/
def get_json_ct_req : Request :=
  { method := "GET", content_type := "application/json", accept := ""
    body := query_body
    query_params := [("query", ⟨"\x7b hello \x7d", none⟩), ("variables", ⟨"oops", none⟩)]
    form := empty_form }

/-- A GET request with a well-formed query string. -/
def get_ok_req : Request :=
  { method := "GET", content_type := "", accept := ""
    body := ⟨"", none⟩
    query_params := [("query", ⟨"\x7b hello \x7d", some (Json.str "\x7b hello \x7d")⟩)]
    form := empty_form }

/-- A POST request with a JSON content type and a well-formed body. -/
def post_json_req : Request :=
  { method := "POST", content_type := "application/json", accept := ""
    body := query_body, query_params := [], form := empty_form }

/-- A request whose method is the lowercase string "get". -/
def lowercase_get_req : Request :=
  { method := "get", content_type := "", accept := ""
    body := ⟨"", none⟩
    query_params := [("query", ⟨"\x7b hello \x7d", some (Json.str "\x7b hello \x7d")⟩)]
    form := empty_form }

/-- The default view with queries-via-GET disabled. -/
def no_get_view : BaseHTTPView := { default_view with allow_queries_via_get := false }

/-- The default handler with queries-via-GET disabled. -/
def no_get_handler : HTTPHandler := { default_handler with allow_queries_via_get := false }

/-- The default handler with the console disabled. -/
def no_graphiql_handler : HTTPHandler := { default_handler with graphiql := false }

/-! ## Helper lemmas -/

/-- Every decode failure in parse_json carries the malformed-body error. -/
theorem parse_json_err (t : JsonText) (e : HTTPException)
    (h : BaseHTTPView.parse_json t = .error e) :
    e = ⟨400, "Unable to parse request body as JSON"⟩ := by
  unfold BaseHTTPView.parse_json at h
  rcases ht : t.loads with _ | j <;> simp [ht] at h
  exact h.symm

/-- Every exception raised by parse_form has status 400. -/
theorem parse_form_err (req : Request) (e : HTTPException)
    (h : BaseHTTPView.parse_form req = .error e) : e.status_code = 400 := by
  unfold BaseHTTPView.parse_form at h
  rcases h1 : form_field_json req.form.operations with _ | a <;> simp [h1] at h
  · subst h; rfl
  · rcases h2 : form_field_json req.form.map with _ | b <;> simp [h2] at h
    · subst h; rfl
    · rcases h3 : req.form.files_resolved with _ | c <;> simp [h3] at h
      subst h; rfl

/-- Every exception raised by parse_http_body has status 400. -/
theorem parse_http_body_err (req : Request) (e : HTTPException)
    (h : BaseHTTPView.parse_http_body req = .error e) : e.status_code = 400 := by
  unfold BaseHTTPView.parse_http_body at h
  by_cases h1 : str_has req.content_type "application/json"
  · simp only [h1, if_true] at h
    rcases hj : BaseHTTPView.parse_json req.body with e' | j <;>
      rw [hj] at h <;> simp [Except.map] at h
    rw [← h]
    rw [parse_json_err _ _ hj]
  · by_cases h2 : str_starts req.content_type "multipart/form-data"
    · simp only [h1, h2, if_false, if_true, Bool.false_eq_true] at h
      rcases hf : BaseHTTPView.parse_form req with e' | j <;>
        rw [hf] at h <;> simp [Except.map] at h
      rw [← h]
      exact parse_form_err _ _ hf
    · by_cases h3 : str_lower req.method = "get"
      · simp only [h1, h2, h3, if_false, if_true, Bool.false_eq_true] at h
        rcases hq : parse_query_params req.query_params with e' | ps <;>
          simp [hq, Except.map] at h
        rw [← h]
      · simp only [h1, h2, h3, if_false, Bool.false_eq_true] at h
        simp [Except.map] at h
        rw [← h]

/-- The gate for exact-case GET with queries-via-GET disabled is empty. -/
theorem allowed_GET_false : allowed_operation_types "GET" false = ∅ := by decide

/-- With queries disabled over GET, the synchronous pipeline answers any
request with method "GET" with status 400. -/
theorem sync_get_400 (v : BaseHTTPView) (req : Request)
    (hflag : v.allow_queries_via_get = false) (hm : req.method = "GET") :
    (v.run_http req).1.status_code = 400 := by
  unfold BaseHTTPView.run_http BaseHTTPView.run
  have hallow : v.is_request_allowed req = true := by
    simp [BaseHTTPView.is_request_allowed, hm]; decide
  simp only [hallow, BaseHTTPView.should_render_graphiql, if_false, Bool.true_eq_false,
    if_true, Bool.false_eq_true]
  unfold BaseHTTPView.execute_operation
  rcases hp : BaseHTTPView.parse_http_body req with e | rd
  · simp only [hp]
    exact parse_http_body_err _ _ hp
  · simp only [hp, hm, hflag, allowed_GET_false]
    unfold BaseSchema.execute
    rcases hq : rd.query with _ | q <;> simp [hq, plain_text_response]

/-- With queries disabled over GET, the asynchronous dispatch answers any
GET request carrying query parameters with status 400. -/
theorem async_get_400 (h : HTTPHandler) (req : Request) (ctx : Context) (root : RootValue)
    (hflag : h.allow_queries_via_get = false) (hm : req.method = "GET")
    (hq : req.query_params ≠ []) :
    (h.get_http_response req ctx root).1.status_code = 400 := by
  unfold HTTPHandler.get_http_response
  simp only [hm, if_true]
  have hne : req.query_params.isEmpty = false := by
    rcases hql : req.query_params with _ | ⟨p, ps⟩
    · exact absurd hql hq
    · rfl
  simp only [hne]
  rcases hpq : parse_query_params req.query_params with e | ps
  · simp [hpq, plain_text_response]
  · simp only [hpq]
    unfold HTTPHandler.respond_with_data
    simp only [hflag, allowed_GET_false]
    unfold BaseSchema.execute
    rcases hqq : (parse_request_data (Json.obj ps)).query with _ | q <;>
      simp [hqq, plain_text_response]

/-- With queries disabled over GET, a data object carrying a query makes the
asynchronous execution tail answer with the invalid-operation-type error. -/
theorem async_respond_invalid_op (h : HTTPHandler) (data : Json) (ctx : Context)
    (root : RootValue) (q : Json)
    (hflag : h.allow_queries_via_get = false)
    (hq : (parse_request_data data).query = some q) :
    h.respond_with_data "GET" data ctx root =
      plain_text_response (as_http_error_reason (h.schema.classify q) "GET") 400 := by
  unfold HTTPHandler.respond_with_data
  simp only [hflag, allowed_GET_false]
  unfold BaseSchema.execute
  simp [hq]

/-! ## Claims -/

/-- C1: when `allow_queries_via_get` is false, the set of allowed operation
types for a request with method GET is the GET-legal set with QUERY removed,
i.e. empty; every execution attempt on such a request fails with HTTP 400 —
with the invalid-operation-type error whenever the request supplies a
query — and never succeeds: the synchronous pipeline answers every
GET request with 400, and so does the asynchronous dispatch for every GET
request that carries query parameters. -/
theorem claim_C1 :
    allowed_operation_types "GET" false = ∅
    ∧ (∀ (v : BaseHTTPView) (req : Request), v.allow_queries_via_get = false →
        req.method = "GET" → (v.run_http req).1.status_code = 400)
    ∧ (∀ (h : HTTPHandler) (req : Request) (ctx : Context) (root : RootValue),
        h.allow_queries_via_get = false → req.method = "GET" →
        req.query_params ≠ [] →
        (h.get_http_response req ctx root).1.status_code = 400)
    ∧ (∀ (h : HTTPHandler) (data : Json) (ctx : Context) (root : RootValue) (q : Json),
        h.allow_queries_via_get = false → (parse_request_data data).query = some q →
        h.respond_with_data "GET" data ctx root =
          plain_text_response (as_http_error_reason (h.schema.classify q) "GET") 400) :=
  ⟨allowed_GET_false,
   fun v req hflag hm => sync_get_400 v req hflag hm,
   fun h req ctx root hflag hm hq => async_get_400 h req ctx root hflag hm hq,
   fun h data ctx root q hflag hq => async_respond_invalid_op h data ctx root q hflag hq⟩

/-- Witness for C1 at concrete inputs: the disabled-GET view and handler on
a well-formed GET request with a query parameter. -/
theorem claim_C1_witness :
    (no_get_view.run_http get_ok_req).1.status_code = 400
    ∧ (no_get_handler.get_http_response get_ok_req Json.null Json.null).1.status_code = 400
    ∧ no_get_handler.respond_with_data "GET" (Json.obj [("query", Json.str "q")])
        Json.null Json.null =
        plain_text_response (as_http_error_reason OperationType.QUERY "GET") 400 :=
  ⟨claim_C1.2.1 no_get_view get_ok_req rfl rfl,
   claim_C1.2.2.1 no_get_handler get_ok_req Json.null Json.null rfl rfl
     (List.cons_ne_nil _ _),
   claim_C1.2.2.2 no_get_handler (Json.obj [("query", Json.str "q")])
     Json.null Json.null (Json.str "q") rfl rfl⟩

/-- C10: admission and body-parse dispatch in BaseHTTPView lowercase the
method, but the allow_queries_via_get restriction fires only on the exact
string "GET": a request whose method is any other casing of get is admitted
and parsed from its query parameters, while the gate leaves the allowed
operation types exactly as `OperationType.from_http` produced them, for
every value of the flag; only the exact "GET" gets QUERY removed. -/
theorem claim_C10 :
    (∀ (v : BaseHTTPView) (req : Request), str_lower req.method = "get" →
        v.is_request_allowed req = true)
    ∧ (∀ (method : String) (flag : Bool), method ≠ "GET" →
        allowed_operation_types method flag = OperationType.from_http method)
    ∧ allowed_operation_types "GET" false =
        OperationType.from_http "GET" \ {OperationType.QUERY}
    ∧ OperationType.QUERY ∉ allowed_operation_types "GET" false
    ∧ (∀ (req : Request), str_has req.content_type "application/json" = false →
        str_starts req.content_type "multipart/form-data" = false →
        str_lower req.method = "get" →
        BaseHTTPView.parse_http_body req =
          (match parse_query_params req.query_params with
           | .ok params => .ok (parse_request_data (Json.obj params))
           | .error _ => .error ⟨400, "Unable to parse request body as JSON"⟩)) := by
  refine ⟨?_, ?_, by decide, by decide, ?_⟩
  · intro v req hm
    simp [BaseHTTPView.is_request_allowed, hm]
  · intro method flag hne
    unfold allowed_operation_types
    simp [hne]
  · intro req h1 h2 h3
    unfold BaseHTTPView.parse_http_body
    simp only [h1, h2, h3, if_true, if_false, Bool.false_eq_true]
    rcases hq : parse_query_params req.query_params with e | ps <;> simp [hq, Except.map]

/-- Witness for C10 at the lowercase method "get". -/
theorem claim_C10_witness :
    default_view.is_request_allowed lowercase_get_req = true
    ∧ allowed_operation_types "get" false = OperationType.from_http "get"
    ∧ BaseHTTPView.parse_http_body lowercase_get_req =
        (match parse_query_params lowercase_get_req.query_params with
         | .ok params => .ok (parse_request_data (Json.obj params))
         | .error _ => .error ⟨400, "Unable to parse request body as JSON"⟩) :=
  ⟨claim_C10.1 default_view lowercase_get_req rfl,
   claim_C10.2.1 "get" false (by decide),
   claim_C10.2.2.2.2 lowercase_get_req rfl rfl rfl⟩

/-- C9: whenever the execution engine returns a result — errors carried in
the payload included — the asynchronous response builder emits status 200
with content type application/json and the serialized processed result as
body; the anchor conjunct shows the same through the full dispatch for a
JSON POST request. -/
theorem claim_C9 :
    (∀ (h : HTTPHandler) (method : String) (data : Json) (ctx : Context)
        (root : RootValue) (result : ExecutionResult),
        h.schema.execute (parse_request_data data) ctx root
            (allowed_operation_types method h.allow_queries_via_get) = .ok result →
        h.respond_with_data method data ctx root =
          ⟨200, [], "application/json", h.encode_json (h.process_result result)⟩)
    ∧ (∀ (h : HTTPHandler) (req : Request) (ctx : Context) (root : RootValue)
        (data : Json) (result : ExecutionResult),
        req.method = "POST" → str_has req.content_type "application/json" = true →
        req.body.loads = some data →
        h.schema.execute (parse_request_data data) ctx root
            (allowed_operation_types "POST" h.allow_queries_via_get) = .ok result →
        (h.get_http_response req ctx root).1 =
          ⟨200, [], "application/json", h.encode_json (h.process_result result)⟩) := by
  constructor
  · intro h method data ctx root result hex
    unfold HTTPHandler.respond_with_data
    simp only [hex]
  · intro h req ctx root data result hm hct hb hex
    obtain ⟨m, ct, acc, bd, qp, fm⟩ := req
    simp only at hm hct hb
    subst hm
    unfold HTTPHandler.get_http_response HTTPHandler.respond_with_data
    simp [hct, hb, hex]

/-- Witness for C9: the default handler on a well-formed JSON POST. -/
theorem claim_C9_witness :
    (default_handler.get_http_response post_json_req Json.null Json.null).1 =
      ⟨200, [], "application/json",
        default_handler.encode_json (default_handler.process_result sample_result)⟩ :=
  claim_C9.2 default_handler post_json_req Json.null Json.null
    (Json.obj [("query", Json.str "\x7b hello \x7d")]) sample_result rfl rfl rfl rfl

/-- Counterexample to C2: on a POST with content type text/plain the
synchronous view does not answer 415 "Unsupported Media Type"; it raises
HTTPException(400, "Unsupported content type") (base_view.py line 156),
while the asynchronous view answers 415 as the claim states. -/
theorem claim_C2_counterexample :
    (default_view.run_http post_text_req).1 = plain_text_response "Unsupported content type" 400
    ∧ (default_view.run_http post_text_req).1.status_code ≠ 415
    ∧ (default_view.run_http post_text_req).1.body ≠ "Unsupported Media Type"
    ∧ (default_handler.handle post_text_req).1 = plain_text_response "Unsupported Media Type" 415 :=
  ⟨rfl, by decide, by decide, rfl⟩

/-- C2 as amended: for every POST whose content type matches no recognized
encoding, the asynchronous view responds 415 "Unsupported Media Type", but
the synchronous view responds 400 "Unsupported content type". -/
theorem claim_C2_amended :
    (∀ (h : HTTPHandler) (req : Request) (ctx : Context) (root : RootValue),
        req.method = "POST" →
        str_has req.content_type "application/json" = false →
        str_starts req.content_type "multipart/form-data" = false →
        h.get_http_response req ctx root =
          (plain_text_response "Unsupported Media Type" 415, []))
    ∧ (∀ (v : BaseHTTPView) (req : Request),
        str_lower req.method = "post" →
        str_has req.content_type "application/json" = false →
        str_starts req.content_type "multipart/form-data" = false →
        (v.run_http req).1 = plain_text_response "Unsupported content type" 400) := by
  constructor
  · intro h req ctx root hm h1 h2
    obtain ⟨m, ct, acc, bd, qp, fm⟩ := req
    simp only at hm h1 h2
    subst hm
    unfold HTTPHandler.get_http_response
    simp [h1, h2]
  · intro v req hm h1 h2
    unfold BaseHTTPView.run_http BaseHTTPView.run
    have hallow : v.is_request_allowed req = true := by
      simp [BaseHTTPView.is_request_allowed, hm]
    simp only [hallow, BaseHTTPView.should_render_graphiql, Bool.true_eq_false,
      if_false, if_true, Bool.false_eq_true]
    unfold BaseHTTPView.execute_operation BaseHTTPView.parse_http_body
    have hg : str_lower req.method = "get" ↔ False := by
      rw [hm]; simp
    simp [h1, h2, hg, Except.map]

/-- Witness for the amended C2 on the text/plain POST request. -/
theorem claim_C2_witness :
    default_handler.get_http_response post_text_req Json.null Json.null =
      (plain_text_response "Unsupported Media Type" 415, [])
    ∧ (default_view.run_http post_text_req).1 = plain_text_response "Unsupported content type" 400 :=
  ⟨claim_C2_amended.1 default_handler post_text_req Json.null Json.null rfl rfl rfl,
   claim_C2_amended.2 default_view post_text_req rfl rfl rfl⟩

/-- Counterexample to C6: a PUT request gets status 405 from both
orchestrators, but the synchronous body is "GraphQL only supports GET and
POST requests." (base_view.py line 172), not "Method Not Allowed". -/
theorem claim_C6_counterexample :
    (default_view.run_http put_req).1.status_code = 405
    ∧ (default_view.run_http put_req).1.body = "GraphQL only supports GET and POST requests."
    ∧ (default_view.run_http put_req).1.body ≠ "Method Not Allowed" :=
  ⟨rfl, rfl, by decide⟩

/-- C6 as amended: every request whose lowercased method is neither get nor
post is rejected with 405 before any content-type dispatch or parsing (the
recorded trace is empty and the response ignores content type and body);
the body is "Method Not Allowed" in the asynchronous view but "GraphQL only
supports GET and POST requests." in the synchronous one. -/
theorem claim_C6_amended :
    (∀ (v : BaseHTTPView) (req : Request),
        str_lower req.method ≠ "get" → str_lower req.method ≠ "post" →
        v.run_http req =
          (plain_text_response "GraphQL only supports GET and POST requests." 405, []))
    ∧ (∀ (h : HTTPHandler) (req : Request) (ctx : Context) (root : RootValue),
        str_lower req.method ≠ "get" → str_lower req.method ≠ "post" →
        h.get_http_response req ctx root = (plain_text_response "Method Not Allowed" 405, [])) := by
  constructor
  · intro v req h1 h2
    have hallow : v.is_request_allowed req = false := by
      unfold BaseHTTPView.is_request_allowed
      simp [h1, h2]
    unfold BaseHTTPView.run_http BaseHTTPView.run
    simp [hallow]
  · intro h req ctx root h1 h2
    have hg : req.method ≠ "GET" := fun hh => h1 (by rw [hh]; rfl)
    have hp : req.method ≠ "POST" := fun hh => h2 (by rw [hh]; rfl)
    unfold HTTPHandler.get_http_response
    simp [hg, hp]

/-- Witness for the amended C6 on the PUT request. -/
theorem claim_C6_witness :
    default_view.run_http put_req =
      (plain_text_response "GraphQL only supports GET and POST requests." 405, [])
    ∧ default_handler.get_http_response put_req Json.null Json.null =
      (plain_text_response "Method Not Allowed" 405, []) :=
  ⟨claim_C6_amended.1 default_view put_req (by decide) (by decide),
   claim_C6_amended.2 default_handler put_req Json.null Json.null (by decide) (by decide)⟩

/-- Counterexample to C7: on a GET with an empty query string and the
console not rendered, the synchronous view does not answer 404 — it parses
the empty parameter set (the trace records the parse) and fails execution
with 400 "No GraphQL query found in the request". -/
theorem claim_C7_counterexample :
    (default_view.run_http bare_get_req).1 =
      plain_text_response "No GraphQL query found in the request" 400
    ∧ (default_view.run_http bare_get_req).1.status_code ≠ 404
    ∧ Event.parse ∈ (default_view.run_http bare_get_req).2 :=
  ⟨rfl, by decide, by decide⟩

/-- C7 as amended: the asynchronous handler behaves as claimed on a GET
with an empty query string — the console page with 200 when the feature is
on and the accept header advertises text/html or */*, an empty-bodied 404
otherwise, nothing parsed or executed either way (empty trace).  The
synchronous base view has no 404 path: its console check is constantly
false and a bare GET without a JSON or multipart content type is parsed as
an empty parameter set and fails at execution with 400 "No GraphQL query
found in the request". -/
theorem claim_C7_amended :
    (∀ (h : HTTPHandler) (req : Request) (ctx : Context) (root : RootValue),
        req.method = "GET" → req.query_params = [] →
        (h.graphiql = true ∧
            (str_has req.accept "text/html" = true ∨ str_has req.accept "*/*" = true) →
          h.get_http_response req ctx root = (html_response h.graphiql_html 200, []))
        ∧ (¬(h.graphiql = true ∧
              (str_has req.accept "text/html" = true ∨ str_has req.accept "*/*" = true)) →
          h.get_http_response req ctx root = (html_response "" 404, [])))
    ∧ (∀ (v : BaseHTTPView) (req : Request),
        str_lower req.method = "get" → req.query_params = [] →
        str_has req.content_type "application/json" = false →
        str_starts req.content_type "multipart/form-data" = false →
        v.run_http req =
          (plain_text_response "No GraphQL query found in the request" 400,
           [Event.parse, Event.get_context, Event.get_root_value, Event.execute])) := by
  constructor
  · intro h req ctx root hm hqp
    constructor
    · intro hcond
      have hsr : h.should_render_graphiql req = true := by
        unfold HTTPHandler.should_render_graphiql
        rcases hcond with ⟨hg, hacc⟩
        rcases hacc with ha | ha <;> simp [hg, ha]
      unfold HTTPHandler.get_http_response
      simp [hm, hqp, hsr, HTTPHandler.get_graphiql_response]
    · intro hcond
      have hsr : h.should_render_graphiql req = false := by
        by_contra hne
        have htrue : h.should_render_graphiql req = true := by
          revert hne; cases h.should_render_graphiql req <;> simp
        apply hcond
        unfold HTTPHandler.should_render_graphiql at htrue
        simp only [Bool.and_eq_true, Bool.or_eq_true] at htrue
        exact htrue
      unfold HTTPHandler.get_http_response
      simp [hm, hqp, hsr]
  · intro v req hm hqp h1 h2
    have hallow : v.is_request_allowed req = true := by
      simp [BaseHTTPView.is_request_allowed, hm]
    have hg : str_lower req.method = "get" := hm
    unfold BaseHTTPView.run_http BaseHTTPView.run
    simp only [hallow, BaseHTTPView.should_render_graphiql, Bool.true_eq_false,
      if_false, if_true, Bool.false_eq_true]
    unfold BaseHTTPView.execute_operation BaseHTTPView.parse_http_body
    simp [h1, h2, hg, hqp, parse_query_params, Except.map, parse_request_data,
      Json.get, json_fields_get, BaseSchema.execute]

/-- Witness for the amended C7: console shown, console disabled, and the
synchronous 400, each at a concrete bare GET. -/
theorem claim_C7_witness :
    default_handler.get_http_response bare_get_req Json.null Json.null =
      (html_response default_handler.graphiql_html 200, [])
    ∧ no_graphiql_handler.get_http_response bare_get_req Json.null Json.null =
      (html_response "" 404, [])
    ∧ default_view.run_http bare_get_req =
      (plain_text_response "No GraphQL query found in the request" 400,
       [Event.parse, Event.get_context, Event.get_root_value, Event.execute]) :=
  ⟨(claim_C7_amended.1 default_handler bare_get_req Json.null Json.null rfl rfl).1
     ⟨rfl, Or.inl rfl⟩,
   (claim_C7_amended.1 no_graphiql_handler bare_get_req Json.null Json.null rfl rfl).2
     (fun hc => absurd hc.1 (by decide)),
   claim_C7_amended.2 default_view bare_get_req rfl rfl rfl rfl⟩

/-- The trace of the synchronous execution step is determined by whether
the body parse succeeded. -/
theorem execute_operation_trace (v : BaseHTTPView) (req : Request) (sub : SubResponse) :
    (v.execute_operation req sub).2.2 =
      (match BaseHTTPView.parse_http_body req with
       | .error _ => [Event.parse]
       | .ok _ => [Event.parse, Event.get_context, Event.get_root_value, Event.execute]) := by
  unfold BaseHTTPView.execute_operation
  rcases hp : BaseHTTPView.parse_http_body req with e | rd <;> simp [hp]

/-- The trace of the synchronous pipeline: empty when admission fails,
otherwise the execution step's trace. -/
theorem run_http_trace (v : BaseHTTPView) (req : Request) :
    (v.run_http req).2 =
      (if v.is_request_allowed req = false then []
       else (v.execute_operation req (v.get_sub_response req)).2.2) := by
  unfold BaseHTTPView.run_http BaseHTTPView.run
  rcases hallow : v.is_request_allowed req with _ | _
  · simp [hallow]
  · simp only [hallow, Bool.true_eq_false, if_false, BaseHTTPView.should_render_graphiql,
      Bool.false_eq_true]
    rcases hx : v.execute_operation req (v.get_sub_response req) with ⟨res, sub, tr⟩
    rcases res with e | r
    · rcases e with e | e
      · simp [hx]
      · rcases e with t | _ <;> simp [hx]
    · simp [hx]

/-- Counterexample to C4: the asynchronous orchestrator invokes
get_root_value and get_context even for a request with a disallowed method
(PUT, answered 405), contradicting the claim that such requests never
trigger context or root-value construction. -/
theorem claim_C4_counterexample :
    (default_handler.handle put_req).2 = [Event.get_root_value, Event.get_context]
    ∧ Event.get_context ∈ (default_handler.handle put_req).2
    ∧ (default_handler.handle put_req).1.status_code = 405 :=
  ⟨rfl, by decide, rfl⟩

/-- C4 as amended: the synchronous orchestrator behaves as claimed — a
request failing admission triggers nothing, a request with an unparseable
body triggers neither collaborator, and whenever get_context is invoked the
admission check has passed, the body has parsed, and the trace is exactly
parse, context, root value, execute in that order.  The asynchronous
orchestrator instead invokes get_root_value and then get_context first, for
every request. -/
theorem claim_C4_amended :
    (∀ (v : BaseHTTPView) (req : Request), v.is_request_allowed req = false →
        (v.run_http req).2 = [])
    ∧ (∀ (v : BaseHTTPView) (req : Request) (e : HTTPException),
        BaseHTTPView.parse_http_body req = .error e →
        Event.get_context ∉ (v.run_http req).2 ∧ Event.get_root_value ∉ (v.run_http req).2)
    ∧ (∀ (v : BaseHTTPView) (req : Request), Event.get_context ∈ (v.run_http req).2 →
        v.is_request_allowed req = true
        ∧ (∃ rd, BaseHTTPView.parse_http_body req = .ok rd)
        ∧ (v.run_http req).2 =
            [Event.parse, Event.get_context, Event.get_root_value, Event.execute])
    ∧ (∀ (h : HTTPHandler) (req : Request), ∃ t,
        (h.handle req).2 = Event.get_root_value :: Event.get_context :: t) := by
  refine ⟨?_, ?_, ?_, ?_⟩
  · intro v req hallow
    rw [run_http_trace, if_pos hallow]
  · intro v req e hp
    rw [run_http_trace]
    rcases hallow : v.is_request_allowed req with _ | _
    · simp
    · rw [execute_operation_trace, hp]
      simp
  · intro v req hmem
    rw [run_http_trace] at hmem
    rcases hallow : v.is_request_allowed req with _ | _
    · rw [if_pos hallow] at hmem
      simp at hmem
    · rw [if_neg (by simp [hallow]), execute_operation_trace] at hmem
      rcases hp : BaseHTTPView.parse_http_body req with e | rd
      · rw [hp] at hmem
        simp at hmem
      · rw [hp] at hmem
        refine ⟨rfl, ⟨rd, rfl⟩, ?_⟩
        rw [run_http_trace, if_neg (by simp [hallow]), execute_operation_trace, hp]
  · intro h req
    exact ⟨(h.get_http_response req ((h.get_context req ⟨[], none⟩).1) (h.get_root_value req)).2, rfl⟩

/-- Witness for the amended C4 at concrete requests: a rejected PUT, an
unparseable POST, a well-formed GET, and the asynchronous trace prefix. -/
theorem claim_C4_witness :
    (default_view.run_http put_req).2 = []
    ∧ (Event.get_context ∉ (default_view.run_http post_text_req).2
        ∧ Event.get_root_value ∉ (default_view.run_http post_text_req).2)
    ∧ (default_view.is_request_allowed get_ok_req = true
        ∧ (∃ rd, BaseHTTPView.parse_http_body get_ok_req = .ok rd)
        ∧ (default_view.run_http get_ok_req).2 =
            [Event.parse, Event.get_context, Event.get_root_value, Event.execute])
    ∧ (∃ t, (default_handler.handle put_req).2 =
        Event.get_root_value :: Event.get_context :: t) :=
  ⟨claim_C4_amended.1 default_view put_req (by decide),
   claim_C4_amended.2.1 default_view post_text_req ⟨400, "Unsupported content type"⟩ rfl,
   claim_C4_amended.2.2.1 default_view get_ok_req (by decide),
   claim_C4_amended.2.2.2 default_handler put_req⟩

/-- Counterexample to C5: merging a protocol response holding one header
with a sub-response holding one context-phase header yields the protocol
header first and the context-phase header second — not the claimed
context-first order. -/
theorem claim_C5_counterexample :
    (merge_sub_response ⟨200, [("x-protocol", "p")], "text/plain", ""⟩
        ⟨[("x-context", "c")], none⟩).headers = [("x-protocol", "p"), ("x-context", "c")]
    ∧ (merge_sub_response ⟨200, [("x-protocol", "p")], "text/plain", ""⟩
        ⟨[("x-context", "c")], none⟩).headers ≠ [("x-context", "c"), ("x-protocol", "p")] :=
  ⟨rfl, by decide⟩

/-- C5 as amended: the merge puts the protocol response headers first,
followed by the context-phase header mutations (body and media type
untouched); the final status is the protocol-assigned one unless the
context phase set a truthy (non-null, non-zero) status, in which case the
context-phase status wins; and handle is exactly this merge applied to the
protocol response and the sub-response the context phase left behind. -/
theorem claim_C5_amended :
    (∀ (resp : HttpResponse) (sub : SubResponse),
        (merge_sub_response resp sub).headers = resp.headers ++ sub.headers
        ∧ (merge_sub_response resp sub).body = resp.body
        ∧ (merge_sub_response resp sub).media_type = resp.media_type)
    ∧ (∀ (resp : HttpResponse) (sub : SubResponse), sub.status_code = none →
        (merge_sub_response resp sub).status_code = resp.status_code)
    ∧ (∀ (resp : HttpResponse) (sub : SubResponse) (s : Nat), sub.status_code = some s →
        s ≠ 0 → (merge_sub_response resp sub).status_code = s)
    ∧ (∀ (h : HTTPHandler) (req : Request),
        (h.handle req).1 =
          merge_sub_response
            (h.get_http_response req ((h.get_context req ⟨[], none⟩).1)
              (h.get_root_value req)).1
            ((h.get_context req ⟨[], none⟩).2)) := by
  refine ⟨?_, ?_, ?_, ?_⟩
  · intro resp sub
    exact ⟨rfl, rfl, rfl⟩
  · intro resp sub hnone
    unfold merge_sub_response
    simp [hnone]
  · intro resp sub s hsome hs
    unfold merge_sub_response
    simp [hsome, hs]
  · intro h req
    rfl

/-- Witness for the amended C5 status rule at concrete merges. -/
theorem claim_C5_witness :
    (merge_sub_response ⟨200, [("a", "1")], "text/plain", "ok"⟩ ⟨[("b", "2")], none⟩).status_code
      = 200
    ∧ (merge_sub_response ⟨200, [("a", "1")], "text/plain", "ok"⟩
        ⟨[("b", "2")], some 418⟩).status_code = 418 :=
  ⟨claim_C5_amended.2.1 ⟨200, [("a", "1")], "text/plain", "ok"⟩ ⟨[("b", "2")], none⟩ rfl,
   claim_C5_amended.2.2.1 ⟨200, [("a", "1")], "text/plain", "ok"⟩ ⟨[("b", "2")], some 418⟩ 418
     rfl (by decide)⟩

/-- When the first `variables` query parameter fails to decode, the whole
query-parameter parse fails. -/
theorem parse_query_params_bad_variables (ps : List (String × JsonText)) (t : JsonText)
    (hfind : find_param ps "variables" = some t) (hbad : t.loads = none) :
    parse_query_params ps = .error () := by
  induction ps with
  | nil => simp [find_param] at hfind
  | cons p rest ih =>
    obtain ⟨k, u⟩ := p
    unfold find_param at hfind
    unfold parse_query_params
    by_cases hk : k = "variables"
    · simp only [hk, if_true] at hfind ⊢
      have hut : u = t := by
        injection hfind
      rw [hut, hbad]
    · simp only [hk, if_false] at hfind ⊢
      rw [ih hfind]
      rfl

/-- Counterexample to C8: a GET request that also carries a JSON content
type and a valid JSON body is dispatched by the synchronous parser on its
content type before its method, so its malformed `variables` query
parameter is never decoded and the request succeeds with 200 instead of the
claimed 400. -/
theorem claim_C8_counterexample :
    get_json_ct_req.method = "GET"
    ∧ get_json_ct_req.query_params ≠ []
    ∧ find_param get_json_ct_req.query_params "variables" = some ⟨"oops", none⟩
    ∧ (JsonText.mk "oops" none).loads = none
    ∧ (default_view.run_http get_json_ct_req).1.status_code = 200
    ∧ (default_view.run_http get_json_ct_req).1.status_code ≠ 400 :=
  ⟨rfl, List.cons_ne_nil _ _, rfl, rfl, rfl, by decide⟩

/-- C8 as amended: for every GET request with a non-empty query string
whose `variables` parameter fails to JSON-decode, the asynchronous handler
answers 400 "Unable to parse request body as JSON" with nothing passed to
execution (the trace stops at the parse); the synchronous view does the
same provided the request carries no JSON or multipart content type, since
its parser dispatches on content type before method. -/
theorem claim_C8_amended :
    (∀ (h : HTTPHandler) (req : Request) (ctx : Context) (root : RootValue) (t : JsonText),
        req.method = "GET" → req.query_params ≠ [] →
        find_param req.query_params "variables" = some t → t.loads = none →
        h.get_http_response req ctx root =
          (plain_text_response "Unable to parse request body as JSON" 400, [Event.parse]))
    ∧ (∀ (v : BaseHTTPView) (req : Request) (t : JsonText),
        str_lower req.method = "get" →
        str_has req.content_type "application/json" = false →
        str_starts req.content_type "multipart/form-data" = false →
        find_param req.query_params "variables" = some t → t.loads = none →
        v.run_http req =
          (plain_text_response "Unable to parse request body as JSON" 400, [Event.parse])) := by
  constructor
  · intro h req ctx root t hm hqp hfind hbad
    have hne : req.query_params.isEmpty = false := by
      rcases hql : req.query_params with _ | ⟨p, ps⟩
      · exact absurd hql hqp
      · rfl
    unfold HTTPHandler.get_http_response
    simp only [hm, if_true, hne]
    rw [parse_query_params_bad_variables req.query_params t hfind hbad]
  · intro v req t hm h1 h2 hfind hbad
    have hallow : v.is_request_allowed req = true := by
      simp [BaseHTTPView.is_request_allowed, hm]
    have hp : BaseHTTPView.parse_http_body req =
        .error ⟨400, "Unable to parse request body as JSON"⟩ := by
      unfold BaseHTTPView.parse_http_body
      simp only [h1, h2, hm, if_true, if_false, Bool.false_eq_true]
      rw [parse_query_params_bad_variables req.query_params t hfind hbad]
      rfl
    unfold BaseHTTPView.run_http BaseHTTPView.run
    simp only [hallow, Bool.true_eq_false, if_false, BaseHTTPView.should_render_graphiql,
      Bool.false_eq_true]
    unfold BaseHTTPView.execute_operation
    simp [hp, plain_text_response]

/-- Witness for the amended C8 on the GET request with malformed
`variables`. -/
theorem claim_C8_witness :
    default_handler.get_http_response get_bad_vars_req Json.null Json.null =
      (plain_text_response "Unable to parse request body as JSON" 400, [Event.parse])
    ∧ default_view.run_http get_bad_vars_req =
      (plain_text_response "Unable to parse request body as JSON" 400, [Event.parse]) :=
  ⟨claim_C8_amended.1 default_handler get_bad_vars_req Json.null Json.null ⟨"oops", none⟩
     rfl (List.cons_ne_nil _ _) rfl rfl,
   claim_C8_amended.2 default_view get_bad_vars_req ⟨"oops", none⟩ rfl rfl rfl rfl rfl⟩

/-- The synchronous pipeline's response when admission passes and the body
parse fails: the exception's reason and status. -/
theorem sync_run_err (v : BaseHTTPView) (req : Request) (e : HTTPException)
    (hallow : v.is_request_allowed req = true)
    (hp : BaseHTTPView.parse_http_body req = .error e) :
    (v.run_http req).1 = plain_text_response e.reason e.status_code := by
  unfold BaseHTTPView.run_http BaseHTTPView.run
  simp only [hallow, Bool.true_eq_false, if_false, BaseHTTPView.should_render_graphiql,
    Bool.false_eq_true]
  unfold BaseHTTPView.execute_operation
  simp [hp, plain_text_response]

/-- The synchronous pipeline's response when admission passes and the body
parses: the engine outcome mapped exactly as run maps it. -/
theorem sync_run_ok (v : BaseHTTPView) (req : Request) (rd : GraphQLRequestData)
    (hallow : v.is_request_allowed req = true)
    (hp : BaseHTTPView.parse_http_body req = .ok rd) :
    (v.run_http req).1 =
      (match v.schema.execute rd ((v.get_context req (v.get_sub_response req)).1)
          (v.get_root_value req)
          (allowed_operation_types req.method v.allow_queries_via_get) with
       | .error (.invalidOperationType t) =>
           plain_text_response (as_http_error_reason t req.method) 400
       | .error .missingQuery =>
           plain_text_response "No GraphQL query found in the request" 400
       | .ok result => ⟨200, [], "application/json", encode_json (process_result result)⟩) := by
  unfold BaseHTTPView.run_http BaseHTTPView.run
  simp only [hallow, Bool.true_eq_false, if_false, BaseHTTPView.should_render_graphiql,
    Bool.false_eq_true]
  unfold BaseHTTPView.execute_operation
  simp only [hp]
  rcases hex : v.schema.execute rd ((v.get_context req (v.get_sub_response req)).1)
      (v.get_root_value req)
      (allowed_operation_types req.method v.allow_queries_via_get) with e | r
  · rcases e with t | _ <;> simp [hex, plain_text_response]
  · simp [hex, BaseHTTPView.create_response]

/-- Counterexample to C3: on the same POST request with content type
text/plain and identically configured collaborators, the synchronous
orchestrator answers 400 and the asynchronous one 415, and their recorded
action sequences differ as well. -/
theorem claim_C3_counterexample :
    (default_view.run_http post_text_req).1 ≠ (default_handler.handle post_text_req).1
    ∧ (default_view.run_http post_text_req).1.status_code = 400
    ∧ (default_handler.handle post_text_req).1.status_code = 415
    ∧ (default_view.run_http post_text_req).2 ≠ (default_handler.handle post_text_req).2 :=
  ⟨by decide, rfl, rfl, by decide⟩

/-- C3 as amended: the two orchestrators do not perform the same steps in
the same order — the asynchronous one builds root value and context before
admission and parsing (and in root-then-context order, against the
synchronous context-then-root), and their responses diverge on non-GET/POST
methods, on unrecognized POST content types, on bare GETs and on GETs
carrying a JSON content type.  Restricted to identically configured
collaborators and to the common request classes — POST with a JSON or
multipart content type, and GET with a non-empty query string and no
JSON/multipart content type — both produce the same response status,
media type and body. -/
theorem claim_C3_amended :
    ∀ (v : BaseHTTPView) (h : HTTPHandler) (req : Request) (ctx : Context) (root : RootValue),
      v.allow_queries_via_get = h.allow_queries_via_get →
      v.schema = h.schema →
      h.process_result = process_result →
      h.encode_json = encode_json →
      (v.get_context req (v.get_sub_response req)).1 = ctx →
      v.get_root_value req = root →
      ((req.method = "POST" ∧ str_has req.content_type "application/json" = true)
        ∨ (req.method = "POST" ∧ str_has req.content_type "application/json" = false
            ∧ str_starts req.content_type "multipart/form-data" = true)
        ∨ (req.method = "GET" ∧ req.query_params ≠ []
            ∧ str_has req.content_type "application/json" = false
            ∧ str_starts req.content_type "multipart/form-data" = false)) →
      (v.run_http req).1 = (h.get_http_response req ctx root).1 := by
  intro v h req ctx root hflag hschema hpr hej hctx hroot hcases
  have respond_eq : ∀ (data : Json),
      (match v.schema.execute (parse_request_data data) ctx root
          (allowed_operation_types req.method v.allow_queries_via_get) with
       | .error (.invalidOperationType t) =>
           plain_text_response (as_http_error_reason t req.method) 400
       | .error .missingQuery =>
           plain_text_response "No GraphQL query found in the request" 400
       | .ok result => ⟨200, [], "application/json", encode_json (process_result result)⟩) =
      h.respond_with_data req.method data ctx root := by
    intro data
    unfold HTTPHandler.respond_with_data
    rw [hschema, hflag, hpr, hej]
  have hallow : v.is_request_allowed req = true := by
    rcases hcases with ⟨hm, _⟩ | ⟨hm, _⟩ | ⟨hm, _⟩ <;>
      simp only [BaseHTTPView.is_request_allowed, hm] <;> decide
  rcases hcases with ⟨hm, hct⟩ | ⟨hm, hct1, hct2⟩ | ⟨hm, hqp, hct1, hct2⟩
  · -- POST with a JSON content type
    rcases hb : req.body.loads with _ | data
    · have hp : BaseHTTPView.parse_http_body req =
          .error ⟨400, "Unable to parse request body as JSON"⟩ := by
        unfold BaseHTTPView.parse_http_body BaseHTTPView.parse_json
        simp [hct, hb, Except.map]
      rw [sync_run_err v req _ hallow hp]
      unfold HTTPHandler.get_http_response
      simp [hm, hct, hb]
    · have hp : BaseHTTPView.parse_http_body req = .ok (parse_request_data data) := by
        unfold BaseHTTPView.parse_http_body BaseHTTPView.parse_json
        simp [hct, hb, Except.map]
      rw [sync_run_ok v req _ hallow hp, hctx, hroot, respond_eq data]
      unfold HTTPHandler.get_http_response
      simp [hm, hct, hb]
  · -- POST with a multipart content type
    rcases h1 : form_field_json req.form.operations with _ | ops
    · have hp : BaseHTTPView.parse_http_body req =
          .error ⟨400, "Unable to parse request body as JSON"⟩ := by
        unfold BaseHTTPView.parse_http_body BaseHTTPView.parse_form
        simp [hct1, hct2, h1, Except.map]
      rw [sync_run_err v req _ hallow hp]
      unfold HTTPHandler.get_http_response
      simp [hm, hct1, hct2, h1]
    · rcases h2 : form_field_json req.form.map with _ | fmap
      · have hp : BaseHTTPView.parse_http_body req =
            .error ⟨400, "Unable to parse request body as JSON"⟩ := by
          unfold BaseHTTPView.parse_http_body BaseHTTPView.parse_form
          simp [hct1, hct2, h1, h2, Except.map]
        rw [sync_run_err v req _ hallow hp]
        unfold HTTPHandler.get_http_response
        simp [hm, hct1, hct2, h1, h2]
      · rcases h3 : req.form.files_resolved with _ | data
        · have hp : BaseHTTPView.parse_http_body req =
              .error ⟨400, "File(s) missing in form data"⟩ := by
            unfold BaseHTTPView.parse_http_body BaseHTTPView.parse_form
            simp [hct1, hct2, h1, h2, h3, Except.map]
          rw [sync_run_err v req _ hallow hp]
          unfold HTTPHandler.get_http_response
          simp [hm, hct1, hct2, h1, h2, h3]
        · have hp : BaseHTTPView.parse_http_body req = .ok (parse_request_data data) := by
            unfold BaseHTTPView.parse_http_body BaseHTTPView.parse_form
            simp [hct1, hct2, h1, h2, h3, Except.map]
          rw [sync_run_ok v req _ hallow hp, hctx, hroot, respond_eq data]
          unfold HTTPHandler.get_http_response
          simp [hm, hct1, hct2, h1, h2, h3]
  · -- GET with a non-empty query string and no recognized content type
    have hne : req.query_params.isEmpty = false := by
      rcases hql : req.query_params with _ | ⟨p, ps⟩
      · exact absurd hql hqp
      · rfl
    have hget : str_lower req.method = "get" := by rw [hm]; rfl
    rcases hpq : parse_query_params req.query_params with e | ps
    · have hp : BaseHTTPView.parse_http_body req =
          .error ⟨400, "Unable to parse request body as JSON"⟩ := by
        unfold BaseHTTPView.parse_http_body
        simp [hct1, hct2, hget, hpq, Except.map]
      rw [sync_run_err v req _ hallow hp]
      unfold HTTPHandler.get_http_response
      simp [hm, hne, hpq]
    · have hp : BaseHTTPView.parse_http_body req = .ok (parse_request_data (Json.obj ps)) := by
        unfold BaseHTTPView.parse_http_body
        simp [hct1, hct2, hget, hpq, Except.map]
      rw [sync_run_ok v req _ hallow hp, hctx, hroot, respond_eq (Json.obj ps)]
      unfold HTTPHandler.get_http_response
      simp [hm, hne, hpq]

/-- Witness for the amended C3: identical responses on a well-formed JSON
POST and a well-formed GET. -/
theorem claim_C3_witness :
    (default_view.run_http post_json_req).1 =
      (default_handler.get_http_response post_json_req Json.null Json.null).1
    ∧ (default_view.run_http get_ok_req).1 =
      (default_handler.get_http_response get_ok_req Json.null Json.null).1 :=
  ⟨claim_C3_amended default_view default_handler post_json_req Json.null Json.null
     rfl rfl rfl rfl rfl rfl (Or.inl ⟨rfl, rfl⟩),
   claim_C3_amended default_view default_handler get_ok_req Json.null Json.null
     rfl rfl rfl rfl rfl rfl (Or.inr (Or.inr ⟨rfl, List.cons_ne_nil _ _, rfl, rfl⟩))⟩
